import Mathlib

/-!
Verification development for the training script
`04_train_img_to_img_denoiser.py` (PET image-to-image denoiser training).

The script is shallowly embedded: pure fragments become Lean functions,
the epoch loop becomes a fold over an explicit run state, filesystem and
console side effects become an explicit effect trace, and the float
values stored in the metric tensors are modelled as rationals extended
with a NaN element (`TVal`), with torch's NaN-propagation for `mean`,
`max` and comparisons.
-/

/-- JSON values, the result type of a successful `json.loads`. -/
inductive JsonValue where
  | null
  | bool (b : Bool)
  | num (q : ℚ)
  | str (s : String)
  | arr (xs : List JsonValue)
  | obj (kvs : List (String × JsonValue))

/-- Embedding of `parse_json_model_kwargs` (lines 19-28).  The call to
`json.loads` is an external library call; its outcome is the argument:
`Except.error e` models a `json.JSONDecodeError` with message `e`, and
`Except.ok v` models a successful parse to the JSON value `v`.  The
function returns the dict for a JSON object and otherwise raises
`argparse.ArgumentTypeError`, modelled as `Except.error`. -/
def parse_json_model_kwargs (loadsResult : Except String JsonValue) :
    Except String (List (String × JsonValue)) :=
  match loadsResult with
  | Except.error e => Except.error ("Invalid JSON for --model-kwargs: " ++ e)
  | Except.ok v =>
    match v with
    | JsonValue.obj kvs => Except.ok kvs
    | _ => Except.error "--model-kwargs must be a JSON object (i.e. dict)"

/-- Side-effecting actions of the script prologue that follow argument
parsing, in source order: run-directory creation (line 95), writing
`args.json` (line 100), dataset and loader construction (lines 123-145),
model construction (line 158). -/
inductive StartupAction where
  | mkdirModelDir
  | writeArgsJson
  | writeTrainDirsJson
  | constructTrainDataset
  | writeValDirsJson
  | constructValDataset
  | constructModel
deriving DecidableEq

/-- Embedding of the script prologue ordering: `args = parser.parse_args()`
(line 77) runs every argument type converter, including
`parse_json_model_kwargs`; only if that succeeds does the script reach the
run-directory creation and later allocations.  An argparse type-converter
error aborts with no actions performed. -/
def scriptStartup (loadsResult : Except String JsonValue) :
    Except String (List (String × JsonValue) × List StartupAction) :=
  match parse_json_model_kwargs loadsResult with
  | Except.error e => Except.error e
  | Except.ok kw =>
    Except.ok (kw,
      [StartupAction.mkdirModelDir, StartupAction.writeArgsJson,
       StartupAction.writeTrainDirsJson, StartupAction.constructTrainDataset,
       StartupAction.writeValDirsJson, StartupAction.constructValDataset,
       StartupAction.constructModel])

/-- Scalar float values held in the metric tensors: a rational number or
NaN.  (Infinities do not arise in the claims considered.) -/
inductive TVal where
  | nan
  | fin (q : ℚ)
deriving DecidableEq

/-- Strict `>` on tensor scalars with IEEE semantics: any comparison
against NaN is false. -/
def TVal.gtB : TVal → TVal → Bool
  | TVal.fin a, TVal.fin b => decide (b < a)
  | _, _ => false

/-- Binary max with torch's NaN propagation. -/
def TVal.maxT : TVal → TVal → TVal
  | TVal.fin a, TVal.fin b => TVal.fin (max a b)
  | _, _ => TVal.nan

/-- Addition with NaN propagation. -/
def TVal.addT : TVal → TVal → TVal
  | TVal.fin a, TVal.fin b => TVal.fin (a + b)
  | _, _ => TVal.nan

/-- Embedding of `tensor.max()` on a 1-d tensor.  On an empty tensor
torch raises; the only call site (line 261) is guarded by the
short-circuiting `epoch == 1 or ...`, so the empty case is unreachable
there and is given the junk value NaN. -/
def torchMax : List TVal → TVal
  | [] => TVal.nan
  | x :: xs => xs.foldl TVal.maxT x

/-- Embedding of `tensor.mean()` on a 1-d tensor: the mean of the
entries, NaN if any entry is NaN or the tensor is empty (torch returns
NaN for the mean of an empty tensor). -/
def tmean (l : List TVal) : TVal :=
  match l.foldl TVal.addT (TVal.fin 0) with
  | TVal.nan => TVal.nan
  | TVal.fin s =>
    if l.length = 0 then TVal.nan else TVal.fin (s / (l.length : ℚ))

/-- Paths inside the run directory `model_dir` that the script touches.
`epochFile e` stands for `epoch_{e:04}.pth` (zero-padded rendering of the
epoch number, injective), `best` for `best.pth`, `valSamplePlot i` for
the files written by `plot_batch_input_output_target` with prefix
`val_sample_batch_{i:03}`, `metricsPdf` for `current_metrics.pdf`. -/
inductive RPath where
  | argsJson
  | trainDirsJson
  | valDirsJson
  | epochFile (epoch : Nat)
  | best
  | valSamplePlot (batchIdx : Nat)
  | metricsPdf
deriving DecidableEq

/-- Embedding of `torch.utils.data.DataLoader` batching with a sequential
sampler: the sample list is cut into consecutive batches of size
`batchSize`; with `dropLast = true` a final batch shorter than
`batchSize` is discarded, otherwise it is kept.  (`DataLoader` rejects
`batch_size = 0`; the `batchSize = 0` case is given no batches.) -/
def dataLoaderBatches (batchSize : Nat) (dropLast : Bool) (l : List α) :
    List (List α) :=
  if hbs : batchSize = 0 then []
  else if hl : l.length < batchSize then
    if l.isEmpty then [] else if dropLast then [] else [l]
  else
    l.take batchSize :: dataLoaderBatches batchSize dropLast (l.drop batchSize)
termination_by l.length
decreasing_by
  simp only [List.length_drop]
  omega

/-- The training loader (lines 124-128): `drop_last=True`. -/
def train_loader_batches (tr_batch_size : Nat) (samples : List α) :
    List (List α) :=
  dataLoaderBatches tr_batch_size true samples

/-- The validation loader (lines 142-145): `drop_last` left at its
default `False`. -/
def val_loader_batches (val_batch_size : Nat) (samples : List α) :
    List (List α) :=
  dataLoaderBatches val_batch_size false samples

/-- Embedding of the glob pattern
`subject*_countlevel_{count_level:.1f}_*` (line 111): the name starts
with `subject` and the remainder contains `_countlevel_` followed by the
rendered count level followed by `_`.  `cl` is the `:.1f` rendering of
`count_level`. -/
def globMatchCountLevel (cl : String) (s : String) : Bool :=
  s.startsWith ("subject") &&
    decide (("_countlevel_" ++ cl ++ "_").data <:+: (s.drop 7).data)

/-- Embedding of `all_data_dirs` (lines 110-112): the directory listing
filtered by the glob pattern, sorted (`sorted` on Python strings is the
lexicographic order on code points, matching `≤` on `String`). -/
def all_data_dirs (listing : List String) (cl : String) : List String :=
  (listing.filter (globMatchCountLevel cl)).mergeSort (fun a b => a ≤ b)

/-- Embedding of `train_dirs = all_data_dirs[:num_training_samples]`
(line 115). -/
def train_dirs (listing : List String) (cl : String)
    (num_training_samples : Nat) : List String :=
  (all_data_dirs listing cl).take num_training_samples

/-- Embedding of
`val_dirs = all_data_dirs[num_training_samples : num_training_samples + num_validation_samples]`
(lines 131-133). -/
def val_dirs (listing : List String) (cl : String)
    (num_training_samples num_validation_samples : Nat) : List String :=
  ((all_data_dirs listing cl).drop num_training_samples).take
    num_validation_samples

/-- A mini-batch as yielded by the data loaders: tensors keyed `input`
and `target` (lines 180-181, 219-220). -/
structure Batch (T : Type) where
  input : T
  target : T

/-- External collaborators of the training loop, abstracted: `fwd` is
the model forward pass (first argument: the module's training-mode flag,
set by `model.train()` / `model.eval()`), `criterion` the scalar MSE
loss value (`loss.item()`), `backward` the gradient produced by
`loss.backward()` after `optimizer.zero_grad()`, `optStep` the Adam
update `optimizer.step()` on parameters and optimizer state, `psnrF`
the `PeakSignalNoiseRatio` value of a batch, `gradNormLines` the lines
printed by the gradient-norm diagnostic (lines 191-195). -/
structure Collab (P O T G : Type) where
  fwd : Bool → P → T → T
  criterion : T → T → ℚ
  backward : Bool → P → T → T → G
  optStep : P → O → G → P × O
  psnrF : T → T → TVal
  gradNormLines : G → List String

/-- Checkpoint payload of `torch.save` (lines 247-258).  The source key
`val_pnsr` (sic) holds only the current epoch's PSNR; `val_loss` holds
the entire `val_loss_avg` tensor (filled prefix plus trailing zeros). -/
structure Checkpoint (P O : Type) where
  model_class : String
  model_kwargs : List (String × JsonValue)
  model_state_dict : P
  optimizer_state_dict : O
  epoch : Nat
  val_pnsr : TVal
  val_loss : List TVal

/-- Observable side effects of the loop, in program order.  Console
output is carried with its semantic payload (the printed text is a pure
rendering of it): `printBatchProgress` is line 201, `printGradNorm` the
diagnostic block of lines 191-196, `printEpochTrainLoss` line 209,
`printEpochValLoss` line 239, `printEpochValPsnr` line 242,
`printBestSymlink` line 269.  `modelTrain`/`modelEval` record the
`model.train()` (line 176) and `model.eval()` (line 214) calls. -/
inductive Effect (P O : Type) where
  | modelTrain
  | modelEval
  | printBatchProgress (epoch numEpochs batchIdx numBatches : Nat) (loss : ℚ)
  | printGradNorm (lines : List String)
  | printEpochTrainLoss (epoch numEpochs : Nat) (batchLosses : List ℚ)
  | printEpochValLoss (epoch numEpochs : Nat) (avg : TVal)
  | printEpochValPsnr (epoch numEpochs : Nat) (avg : TVal)
  | printBestSymlink (target : RPath)
  | saveCheckpoint (path : RPath) (ckpt : Checkpoint P O)
  | unlink (path : RPath)
  | symlink (linkPath target : RPath)
  | savePlot (path : RPath)

/-- Run state threaded through the epoch loop: parameters, optimizer
state, the module training-mode flag, the filled prefixes of the three
metric tensors (lines 167-169), the state of the `best.pth` symlink,
and the accumulated effect trace. -/
structure RunState (P O : Type) where
  params : P
  optState : O
  trainingMode : Bool
  train_loss_avg : List TVal
  val_loss_avg : List TVal
  val_psnr : List TVal
  bestExists : Bool
  bestTarget : Option RPath
  effects : List (Effect P O)

/-- One training batch iteration (lines 179-204): forward, loss,
backward, optional gradient-norm print, optimizer step, loss recording,
progress print.  The accumulator carries parameters, optimizer state,
the `batch_losses` recorded so far and the effects emitted so far. -/
def trainStep (c : Collab P O T G) (pgn : Bool) (mode : Bool)
    (epoch numEpochs numBatches : Nat)
    (acc : P × O × List ℚ × List (Effect P O)) (ib : Nat × Batch T) :
    P × O × List ℚ × List (Effect P O) :=
  let p := acc.1
  let o := acc.2.1
  let losses := acc.2.2.1
  let fx := acc.2.2.2
  let output := c.fwd mode p ib.2.input
  let loss := c.criterion output ib.2.target
  let g := c.backward mode p ib.2.input ib.2.target
  let fx2 := fx ++ (if pgn then [Effect.printGradNorm (c.gradNormLines g)] else [])
  let po := c.optStep p o g
  (po.1, po.2, losses ++ [loss],
    fx2 ++ [Effect.printBatchProgress epoch numEpochs ib.1 numBatches loss])

/-- The epoch's training loop (lines 178-204): a fold of `trainStep`
over the enumerated training batches. -/
def trainPhase (c : Collab P O T G) (pgn : Bool) (mode : Bool)
    (epoch numEpochs : Nat) (p : P) (o : O) (batches : List (Batch T)) :
    P × O × List ℚ × List (Effect P O) :=
  batches.enum.foldl (trainStep c pgn mode epoch numEpochs batches.length)
    (p, o, [], [])

/-- One validation batch iteration (lines 218-234): forward under
`torch.no_grad`, loss and PSNR recording, sample plot.  No component of
the model parameters or optimizer state is written. -/
def valStep (c : Collab P O T G) (mode : Bool) (p : P)
    (acc : List ℚ × List TVal × List (Effect P O)) (ib : Nat × Batch T) :
    List ℚ × List TVal × List (Effect P O) :=
  let losses := acc.1
  let psnrs := acc.2.1
  let fx := acc.2.2
  let out := c.fwd mode p ib.2.input
  (losses ++ [c.criterion out ib.2.target],
   psnrs ++ [c.psnrF out ib.2.target],
   fx ++ [Effect.savePlot (RPath.valSamplePlot ib.1)])

/-- The epoch's validation loop body (lines 216-234): `val_losses`,
`batch_psnr` and the per-batch plot effects. -/
def valPhase (c : Collab P O T G) (mode : Bool) (p : P)
    (batches : List (Batch T)) : List ℚ × List TVal × List (Effect P O) :=
  batches.enum.foldl (valStep c mode p) ([], [], [])

/-- The training phase of epoch `epoch` started from run state `s`
(model in mode `s.trainingMode`). -/
def epochTrainOut (c : Collab P O T G) (pgn : Bool) (numEpochs : Nat)
    (trainB : List (Batch T)) (epoch : Nat) (s : RunState P O) :
    P × O × List ℚ × List (Effect P O) :=
  trainPhase c pgn s.trainingMode epoch numEpochs s.params s.optState trainB

/-- The best-pointer update condition (line 261):
`epoch == 1 or val_psnr[epoch - 1] > val_psnr[: epoch - 1].max()`, with
`prior` the recorded PSNR values of the strictly earlier epochs and
`cur` the current epoch's value. -/
def bestUpdate (epoch : Nat) (prior : List TVal) (cur : TVal) : Bool :=
  (epoch == 1) || TVal.gtB cur (torchMax prior)

/-- The current epoch's recorded validation PSNR
(`batch_psnr.mean().item()`, line 237), as a function of the parameters
the epoch trained to. -/
def epochPsnr (c : Collab P O T G) (p : P) (valB : List (Batch T)) : TVal :=
  tmean (valPhase c false p valB).2.1

/-- The epoch's recorded validation-loss average
(`val_losses.mean().item()`, line 236), as a function of the parameters
the epoch trained to. -/
def epochValLoss (c : Collab P O T G) (p : P) (valB : List (Batch T)) : TVal :=
  tmean ((valPhase c false p valB).1.map TVal.fin)

/-- The checkpoint record `torch.save` persists at the end of epoch
`epoch` when the epoch starts from run state `s` (lines 247-258): model
identity and constructor arguments, trained parameter and optimizer
state, epoch index, the current validation PSNR (source key `val_pnsr`)
and the whole `val_loss_avg` tensor (filled prefix plus trailing
zero-initialized entries). -/
def epochCheckpoint (c : Collab P O T G) (pgn : Bool) (numEpochs : Nat)
    (model_class : String) (model_kwargs : List (String × JsonValue))
    (trainB valB : List (Batch T)) (epoch : Nat) (s : RunState P O) :
    Checkpoint P O :=
  let t := epochTrainOut c pgn numEpochs trainB epoch s
  { model_class := model_class
    model_kwargs := model_kwargs
    model_state_dict := t.1
    optimizer_state_dict := t.2.1
    epoch := epoch
    val_pnsr := epochPsnr c t.1 valB
    val_loss := s.val_loss_avg ++ [epochValLoss c t.1 valB] ++
      List.replicate (numEpochs - epoch) (TVal.fin 0) }

/-- The best-symlink maintenance effects of an epoch (lines 260-269):
when the update condition holds, remove an existing `best.pth` and link
it to the current epoch's checkpoint. -/
def bestFxOf (doBest bestExists : Bool) (epoch : Nat) : List (Effect P O) :=
  if doBest then
    (if bestExists then [Effect.unlink RPath.best] else []) ++
      [Effect.symlink RPath.best (RPath.epochFile epoch),
       Effect.printBestSymlink (RPath.epochFile epoch)]
  else []

/-- The effects one epoch iteration appends to the trace, in program
order: training-loop output, epoch training-loss summary,
`model.eval()`, validation-loop output, validation summaries, the
checkpoint save, best-symlink maintenance, the metrics figure. -/
def epochDelta (c : Collab P O T G) (pgn : Bool) (numEpochs : Nat)
    (model_class : String) (model_kwargs : List (String × JsonValue))
    (trainB valB : List (Batch T)) (epoch : Nat) (s : RunState P O) :
    List (Effect P O) :=
  let t := epochTrainOut c pgn numEpochs trainB epoch s
  t.2.2.2 ++
    [Effect.printEpochTrainLoss epoch numEpochs t.2.2.1,
     Effect.modelEval] ++
    (valPhase c false t.1 valB).2.2 ++
    [Effect.printEpochValLoss epoch numEpochs (epochValLoss c t.1 valB),
     Effect.printEpochValPsnr epoch numEpochs (epochPsnr c t.1 valB),
     Effect.saveCheckpoint (RPath.epochFile epoch)
       (epochCheckpoint c pgn numEpochs model_class model_kwargs trainB valB
         epoch s)] ++
    bestFxOf (bestUpdate epoch s.val_psnr (epochPsnr c t.1 valB))
      s.bestExists epoch ++
    [Effect.savePlot RPath.metricsPdf]

/-- One iteration of the epoch loop (lines 177-292): training phase,
epoch training-loss summary, `model.eval()`, validation phase, metric
recording, checkpoint save, best-symlink maintenance, metrics figure. -/
def runEpoch (c : Collab P O T G) (pgn : Bool) (numEpochs : Nat)
    (model_class : String) (model_kwargs : List (String × JsonValue))
    (trainB valB : List (Batch T)) (epoch : Nat) (s : RunState P O) :
    RunState P O :=
  let t := epochTrainOut c pgn numEpochs trainB epoch s
  { params := t.1
    optState := t.2.1
    trainingMode := false
    train_loss_avg := s.train_loss_avg ++ [tmean (t.2.2.1.map TVal.fin)]
    val_loss_avg := s.val_loss_avg ++ [epochValLoss c t.1 valB]
    val_psnr := s.val_psnr ++ [epochPsnr c t.1 valB]
    bestExists := s.bestExists ||
      bestUpdate epoch s.val_psnr (epochPsnr c t.1 valB)
    bestTarget :=
      if bestUpdate epoch s.val_psnr (epochPsnr c t.1 valB) then
        some (RPath.epochFile epoch)
      else s.bestTarget
    effects := s.effects ++
      epochDelta c pgn numEpochs model_class model_kwargs trainB valB
        epoch s }

/-- The run state before the epoch loop: initial parameters and
optimizer state, `model.train()` already called (line 176), all metric
tensors unfilled, no best pointer. -/
def initRunState (p0 : P) (o0 : O) : RunState P O :=
  { params := p0
    optState := o0
    trainingMode := true
    train_loss_avg := []
    val_loss_avg := []
    val_psnr := []
    bestExists := false
    bestTarget := none
    effects := [Effect.modelTrain] }

/-- The run state after the first `k` epochs of the loop
`for epoch in range(1, num_epochs + 1)`.  `trainB e` is the batch list
the (shuffling) training loader yields in epoch `e`; the validation
loader is unshuffled so `valB` is fixed. -/
def runUpTo (c : Collab P O T G) (pgn : Bool) (numEpochs : Nat)
    (model_class : String) (model_kwargs : List (String × JsonValue))
    (trainB : Nat → List (Batch T)) (valB : List (Batch T))
    (p0 : P) (o0 : O) (k : Nat) : RunState P O :=
  (List.range' 1 k).foldl
    (fun s e => runEpoch c pgn numEpochs model_class model_kwargs
      (trainB e) valB e s)
    (initRunState p0 o0)

/-- The completed run: all `num_epochs` epochs. -/
def runTraining (c : Collab P O T G) (pgn : Bool) (numEpochs : Nat)
    (model_class : String) (model_kwargs : List (String × JsonValue))
    (trainB : Nat → List (Batch T)) (valB : List (Batch T))
    (p0 : P) (o0 : O) : RunState P O :=
  runUpTo c pgn numEpochs model_class model_kwargs trainB valB p0 o0 numEpochs

/-- The checkpoint-save effects of a trace, with their paths. -/
def savesOf (fx : List (Effect P O)) : List (RPath × Checkpoint P O) :=
  fx.filterMap fun e =>
    match e with
    | Effect.saveCheckpoint p c => some (p, c)
    | _ => none

/-- Recognizer for the gradient-norm diagnostic print. -/
def isGradNormPrint : Effect P O → Bool
  | Effect.printGradNorm _ => true
  | _ => false

/-- Recognizer for the `model.train()` call marker. -/
def isModelTrain : Effect P O → Bool
  | Effect.modelTrain => true
  | _ => false

/-- Recognizer for the `model.eval()` call marker. -/
def isModelEval : Effect P O → Bool
  | Effect.modelEval => true
  | _ => false

/-- Everything in the state except the effect trace: parameters,
optimizer state, mode, metric histories, best-pointer state. -/
def stateObs (s : RunState P O) :
    P × O × Bool × List TVal × List TVal × List TVal × Bool × Option RPath :=
  (s.params, s.optState, s.trainingMode, s.train_loss_avg, s.val_loss_avg,
   s.val_psnr, s.bestExists, s.bestTarget)

/-- The effect trace with the gradient-norm diagnostic prints removed. -/
def nonGradFx (fx : List (Effect P O)) : List (Effect P O) :=
  fx.filter fun e => ! isGradNormPrint e

/-- A concrete PSNR table used to instantiate the abstract collaborators
on the metric sequence 0.5, 0.7, 0.6, 0.9, 0.9 of the specification's
best-pointer example. -/
def exPsnrTable (q : ℚ) : ℚ :=
  if q = 1 then 1/2 else if q = 2 then 7/10 else if q = 3 then 3/5
  else if q = 4 then 9/10 else if q = 5 then 9/10 else 0

/-- A concrete collaborator instance: parameters are a rational counter,
each optimizer step increments it, the forward pass returns the
parameters, and the PSNR of an epoch's output is read off
`exPsnrTable`. -/
def exCollab : Collab ℚ Unit ℚ Unit :=
  { fwd := fun _ p _ => p
    criterion := fun a b => (a - b) ^ 2
    backward := fun _ _ _ _ => ()
    optStep := fun p o _ => (p + 1, o)
    psnrF := fun out _ => TVal.fin (exPsnrTable out)
    gradNormLines := fun _ => ["grad"] }

/-- A collaborator agreeing with `exCollab` on the forward pass, loss
and PSNR but with a different optimizer step (used to check that the
validation loop does not consult the optimizer). -/
def exCollab2 : Collab ℚ Unit ℚ Unit :=
  { exCollab with optStep := fun p o _ => (p - 1, o) }

/-- A trivial concrete batch. -/
def exBatch : Batch ℚ := ⟨0, 0⟩

/-- A concrete 5-epoch run with one training batch and one validation
batch per epoch; after training epoch `e` the parameters equal `e`, so
the recorded validation PSNR sequence is 0.5, 0.7, 0.6, 0.9, 0.9. -/
def exRun (k : Nat) : RunState ℚ Unit :=
  runUpTo exCollab false 5 "UNet3D" [] (fun _ => [exBatch]) [exBatch] 0 () k

/-- C2: an input that `json.loads` parses to a JSON object is returned
as the equivalent dictionary; a `json.loads` failure or a non-object
JSON value raises `argparse.ArgumentTypeError` with a message describing
the malformed input; and any rejection happens during argument parsing,
before the run directory, files, datasets or model come into being
(`scriptStartup` propagates the error with no startup action
performed). -/
theorem parse_json_model_kwargs_correct :
    (∀ (r : Except String JsonValue) (kvs : List (String × JsonValue)),
      r = Except.ok (JsonValue.obj kvs) →
      parse_json_model_kwargs r = Except.ok kvs) ∧
    (∀ e : String, parse_json_model_kwargs (Except.error e) =
      Except.error ("Invalid JSON for --model-kwargs: " ++ e)) ∧
    (∀ v : JsonValue, (∀ kvs, v ≠ JsonValue.obj kvs) →
      parse_json_model_kwargs (Except.ok v) =
        Except.error "--model-kwargs must be a JSON object (i.e. dict)") ∧
    (∀ (r : Except String JsonValue) (msg : String),
      parse_json_model_kwargs r = Except.error msg →
      scriptStartup r = Except.error msg) := by
  refine ⟨?_, ?_, ?_, ?_⟩
  · intro r kvs hr
    subst hr
    rfl
  · intro e
    rfl
  · intro v hv
    cases v with
    | obj kvs => exact absurd rfl (hv kvs)
    | null => rfl
    | bool b => rfl
    | num q => rfl
    | str s => rfl
    | arr xs => rfl
  · intro r msg hmsg
    simp only [scriptStartup, hmsg]

/-- Witness for C2 at concrete inputs: a JSON object is returned as its
dictionary, and a non-object JSON value is rejected before any startup
action. -/
theorem parse_json_model_kwargs_correct_witness :
    parse_json_model_kwargs
        (Except.ok (JsonValue.obj [("features", JsonValue.arr [JsonValue.num 8])])) =
      Except.ok [("features", JsonValue.arr [JsonValue.num 8])] ∧
    scriptStartup (Except.ok (JsonValue.num 3)) =
      Except.error "--model-kwargs must be a JSON object (i.e. dict)" :=
  ⟨parse_json_model_kwargs_correct.1 _ _ rfl,
   parse_json_model_kwargs_correct.2.2.2 _ _
     (parse_json_model_kwargs_correct.2.2.1 (JsonValue.num 3)
       (fun _ h => JsonValue.noConfusion h))⟩

/-- The sorted, filtered candidate listing has no duplicates when the
directory listing has none (sorting is a permutation of the filtered
listing). -/
lemma all_data_dirs_nodup (L : List String) (cl : String) (h : L.Nodup) :
    (all_data_dirs L cl).Nodup :=
  (List.mergeSort_perm (L.filter (globMatchCountLevel cl)) _).symm.nodup
    (List.Nodup.filter _ h)

/-- C3: the split is a pure function of the directory listing, count
level and sample counts (no randomness): the filtered candidates are
sorted, the training list is the first `num_training_samples` entries of
the sorted candidates, the validation list is the next
`num_validation_samples` entries, the two lists together form a
contiguous initial slice of the sorted candidates, and (for a
duplicate-free listing) they are disjoint. -/
theorem train_val_split_deterministic (L : List String) (cl : String)
    (nTr nVal : Nat) (h : L.Nodup) :
    (all_data_dirs L cl).Sorted (· ≤ ·) ∧
    train_dirs L cl nTr = (all_data_dirs L cl).take nTr ∧
    val_dirs L cl nTr nVal = ((all_data_dirs L cl).drop nTr).take nVal ∧
    train_dirs L cl nTr ++ val_dirs L cl nTr nVal <+: all_data_dirs L cl ∧
    (train_dirs L cl nTr).Disjoint (val_dirs L cl nTr nVal) := by
  refine ⟨?_, rfl, rfl, ?_, ?_⟩
  · have hs := @List.sorted_mergeSort String
      (fun a b : String => decide (a ≤ b))
      (fun a b c hab hbc => by
        simp only [decide_eq_true_eq] at *
        exact le_trans hab hbc)
      (fun a b => by simpa using le_total a b)
      (L.filter (globMatchCountLevel cl))
    exact hs.imp (fun hab => of_decide_eq_true hab)
  · refine ⟨(all_data_dirs L cl).drop (nTr + nVal), ?_⟩
    rw [train_dirs, val_dirs, ← List.take_add, List.take_append_drop]
  · intro a ha hb
    exact List.disjoint_take_drop (all_data_dirs_nodup L cl h) le_rfl
      ha (List.take_subset _ _ hb)

/-- Witness for C3 on a concrete duplicate-free listing. -/
theorem train_val_split_deterministic_witness :
    (["subject02_countlevel_1.0_a", "subject01_countlevel_1.0_a"].Nodup) ∧
    ((all_data_dirs ["subject02_countlevel_1.0_a", "subject01_countlevel_1.0_a"]
        ("1.0")).Sorted (· ≤ ·) ∧
      train_dirs ["subject02_countlevel_1.0_a", "subject01_countlevel_1.0_a"]
        ("1.0") 1 =
        (all_data_dirs ["subject02_countlevel_1.0_a", "subject01_countlevel_1.0_a"]
          ("1.0")).take 1 ∧
      val_dirs ["subject02_countlevel_1.0_a", "subject01_countlevel_1.0_a"]
        ("1.0") 1 1 =
        ((all_data_dirs ["subject02_countlevel_1.0_a", "subject01_countlevel_1.0_a"]
          ("1.0")).drop 1).take 1 ∧
      train_dirs ["subject02_countlevel_1.0_a", "subject01_countlevel_1.0_a"]
          ("1.0") 1 ++
        val_dirs ["subject02_countlevel_1.0_a", "subject01_countlevel_1.0_a"]
          ("1.0") 1 1 <+:
        all_data_dirs ["subject02_countlevel_1.0_a", "subject01_countlevel_1.0_a"]
          ("1.0") ∧
      (train_dirs ["subject02_countlevel_1.0_a", "subject01_countlevel_1.0_a"]
        ("1.0") 1).Disjoint
        (val_dirs ["subject02_countlevel_1.0_a", "subject01_countlevel_1.0_a"]
          ("1.0") 1 1)) :=
  ⟨by decide, train_val_split_deterministic _ _ 1 1 (by decide)⟩

/-- Unfolding lemma: batching a list shorter than the batch size. -/
lemma dataLoaderBatches_small (bs : Nat) (dl : Bool) (l : List α)
    (hbs : bs ≠ 0) (h : l.length < bs) :
    dataLoaderBatches bs dl l =
      if l.isEmpty then [] else if dl then [] else [l] := by
  rw [dataLoaderBatches]
  rw [dif_neg hbs, dif_pos h]

/-- Unfolding lemma: batching a list at least as long as the batch size
cuts off one full batch. -/
lemma dataLoaderBatches_step (bs : Nat) (dl : Bool) (l : List α)
    (hbs : bs ≠ 0) (h : ¬ l.length < bs) :
    dataLoaderBatches bs dl l =
      l.take bs :: dataLoaderBatches bs dl (l.drop bs) := by
  rw [dataLoaderBatches]
  rw [dif_neg hbs, dif_neg h]

/-- With `drop_last` off, the batches concatenate back to the whole
sample list: no sample is lost. -/
lemma dataLoaderBatches_flatten_false (bs : Nat) (hbs : bs ≠ 0)
    (l : List α) : (dataLoaderBatches bs false l).flatten = l := by
  have H : ∀ (n : Nat) (l : List α), l.length ≤ n →
      (dataLoaderBatches bs false l).flatten = l := by
    intro n
    induction n with
    | zero =>
      intro l h
      have hl : l = [] := List.eq_nil_of_length_eq_zero (Nat.le_zero.mp h)
      subst hl
      rw [dataLoaderBatches_small bs false [] hbs (by simpa using Nat.pos_of_ne_zero hbs)]
      rfl
    | succ n ih =>
      intro l h
      by_cases hl : l.length < bs
      · rw [dataLoaderBatches_small bs false l hbs hl]
        by_cases he : l.isEmpty
        · rw [List.isEmpty_iff] at he
          subst he
          simp
        · simp [he]
      · rw [dataLoaderBatches_step bs false l hbs hl]
        rw [List.flatten_cons]
        rw [ih (l.drop bs) (by simp only [List.length_drop]; omega)]
        exact List.take_append_drop bs l
  exact H l.length l le_rfl

/-- When the sample count is not a multiple of the batch size, the
`drop_last` loader yields exactly the full batches of the keeping
loader: the keeping loader's batch list is the dropping loader's batch
list followed by the final, incomplete batch (the tail of the sample
list past the last full batch). -/
lemma dataLoaderBatches_false_eq_true_concat (bs : Nat) (hbs : bs ≠ 0) :
    ∀ l : List α, ¬ bs ∣ l.length →
      dataLoaderBatches bs false l =
        dataLoaderBatches bs true l ++ [l.drop (bs * (l.length / bs))] := by
  have H : ∀ (n : Nat) (l : List α), l.length ≤ n → ¬ bs ∣ l.length →
      dataLoaderBatches bs false l =
        dataLoaderBatches bs true l ++ [l.drop (bs * (l.length / bs))] := by
    intro n
    induction n with
    | zero =>
      intro l h hd
      have hl : l = [] := List.eq_nil_of_length_eq_zero (Nat.le_zero.mp h)
      subst hl
      exact absurd (dvd_zero bs) (by simpa using hd)
    | succ n ih =>
      intro l h hd
      by_cases hl : l.length < bs
      · have hne : ¬ l.isEmpty := by
          simp only [List.isEmpty_iff]
          intro hnil
          subst hnil
          exact hd (dvd_zero bs)
        rw [dataLoaderBatches_small bs false l hbs hl,
          dataLoaderBatches_small bs true l hbs hl]
        simp only [hne, if_false]
        rw [Nat.div_eq_of_lt hl]
        simp
      · rw [dataLoaderBatches_step bs false l hbs hl,
          dataLoaderBatches_step bs true l hbs hl]
        have hlen : (l.drop bs).length ≤ n := by
          simp only [List.length_drop]
          omega
        have hd2 : ¬ bs ∣ (l.drop bs).length := by
          simp only [List.length_drop]
          intro hdvd
          exact hd ((Nat.sub_add_cancel (Nat.le_of_not_lt hl)) ▸
            Nat.dvd_add hdvd (dvd_refl bs))
        rw [ih (l.drop bs) hlen hd2]
        have hdiv : l.length / bs = (l.length - bs) / bs + 1 :=
          Nat.div_eq_sub_div (Nat.pos_of_ne_zero hbs) (Nat.le_of_not_lt hl)
        rw [List.cons_append]
        congr 2
        rw [List.drop_drop, List.length_drop, hdiv]
        congr 1
        ring
  exact fun l => H l.length l le_rfl

/-- The `drop_last` loader yields exactly `len / batchSize` batches. -/
lemma dataLoaderBatches_length_true (bs : Nat) (hbs : bs ≠ 0)
    (l : List α) : (dataLoaderBatches bs true l).length = l.length / bs := by
  have H : ∀ (n : Nat) (l : List α), l.length ≤ n →
      (dataLoaderBatches bs true l).length = l.length / bs := by
    intro n
    induction n with
    | zero =>
      intro l h
      have hl : l = [] := List.eq_nil_of_length_eq_zero (Nat.le_zero.mp h)
      subst hl
      rw [dataLoaderBatches_small bs true [] hbs (by simpa using Nat.pos_of_ne_zero hbs)]
      simp
    | succ n ih =>
      intro l h
      by_cases hl : l.length < bs
      · rw [dataLoaderBatches_small bs true l hbs hl, Nat.div_eq_of_lt hl]
        by_cases he : l.isEmpty <;> simp [he]
      · rw [dataLoaderBatches_step bs true l hbs hl]
        rw [List.length_cons, ih (l.drop bs) (by simp only [List.length_drop]; omega)]
        rw [List.length_drop]
        rw [Nat.div_eq_sub_div (Nat.pos_of_ne_zero hbs) (Nat.le_of_not_lt hl)]
  exact H l.length l le_rfl

/-- Every batch of the `drop_last` loader is a full batch. -/
lemma dataLoaderBatches_true_full (bs : Nat) (hbs : bs ≠ 0) (l : List α) :
    ∀ b ∈ dataLoaderBatches bs true l, b.length = bs := by
  have H : ∀ (n : Nat) (l : List α), l.length ≤ n →
      ∀ b ∈ dataLoaderBatches bs true l, b.length = bs := by
    intro n
    induction n with
    | zero =>
      intro l h
      have hl : l = [] := List.eq_nil_of_length_eq_zero (Nat.le_zero.mp h)
      subst hl
      rw [dataLoaderBatches_small bs true [] hbs (by simpa using Nat.pos_of_ne_zero hbs)]
      simp
    | succ n ih =>
      intro l h
      by_cases hl : l.length < bs
      · rw [dataLoaderBatches_small bs true l hbs hl]
        by_cases he : l.isEmpty <;> simp [he]
      · rw [dataLoaderBatches_step bs true l hbs hl]
        intro b hb
        rcases List.mem_cons.mp hb with hb | hb
        · subst hb
          rw [List.length_take]
          omega
        · exact ih (l.drop bs) (by simp only [List.length_drop]; omega) b hb
  exact H l.length l le_rfl

/-- C10: when the training sample count is not a multiple of
`tr_batch_size`, the training loader (`drop_last=True`) keeps only the
`len / batch` full batches — its batches concatenate to a strict prefix
of the samples, so the trailing samples appear in no training batch of
the epoch and hence in neither the loss statistics nor the parameter
updates — whereas the validation loader (default `drop_last=False`)
loses no sample and keeps the final incomplete batch as its last
batch. -/
theorem train_loader_drops_last_val_loader_keeps (bs bsv : Nat)
    (samples valSamples : List α) (hbs : bs ≠ 0) (hbsv : bsv ≠ 0)
    (h : ¬ bs ∣ samples.length) (hv : ¬ bsv ∣ valSamples.length) :
    (train_loader_batches bs samples).flatten =
      samples.take (bs * (samples.length / bs)) ∧
    (train_loader_batches bs samples).length = samples.length / bs ∧
    (∀ b ∈ train_loader_batches bs samples, b.length = bs) ∧
    (train_loader_batches bs samples).flatten.length < samples.length ∧
    (val_loader_batches bsv valSamples).flatten = valSamples ∧
    val_loader_batches bsv valSamples =
      dataLoaderBatches bsv true valSamples ++
        [valSamples.drop (bsv * (valSamples.length / bsv))] := by
  have hkey := dataLoaderBatches_false_eq_true_concat bs hbs samples h
  have hflat : (dataLoaderBatches bs true samples).flatten =
      samples.take (bs * (samples.length / bs)) := by
    have h1 := dataLoaderBatches_flatten_false bs hbs samples
    rw [hkey, List.flatten_append] at h1
    have h2 : (dataLoaderBatches bs true samples).flatten ++
        samples.drop (bs * (samples.length / bs)) =
        samples.take (bs * (samples.length / bs)) ++
          samples.drop (bs * (samples.length / bs)) := by
      simpa [List.take_append_drop] using h1
    exact List.append_cancel_right h2
  have hmod : samples.length % bs ≠ 0 := fun h0 => h (Nat.dvd_of_mod_eq_zero h0)
  have hdm := Nat.div_add_mod samples.length bs
  refine ⟨hflat, dataLoaderBatches_length_true bs hbs samples,
    dataLoaderBatches_true_full bs hbs samples, ?_,
    dataLoaderBatches_flatten_false bsv hbsv valSamples,
    dataLoaderBatches_false_eq_true_concat bsv hbsv valSamples hv⟩
  rw [train_loader_batches, hflat, List.length_take]
  have hle : bs * (samples.length / bs) ≤ samples.length := Nat.mul_div_le _ _
  omega

/-- Witness for C10: three samples with batch size two. -/
theorem train_loader_drops_last_val_loader_keeps_witness :
    (train_loader_batches 2 ([1, 2, 3] : List Nat)).flatten =
      ([1, 2, 3] : List Nat).take (2 * (([1, 2, 3] : List Nat).length / 2)) ∧
    (train_loader_batches 2 ([1, 2, 3] : List Nat)).length =
      ([1, 2, 3] : List Nat).length / 2 ∧
    (∀ b ∈ train_loader_batches 2 ([1, 2, 3] : List Nat), b.length = 2) ∧
    (train_loader_batches 2 ([1, 2, 3] : List Nat)).flatten.length <
      ([1, 2, 3] : List Nat).length ∧
    (val_loader_batches 2 ([1, 2, 3] : List Nat)).flatten = [1, 2, 3] ∧
    val_loader_batches 2 ([1, 2, 3] : List Nat) =
      dataLoaderBatches 2 true ([1, 2, 3] : List Nat) ++
        [([1, 2, 3] : List Nat).drop (2 * (([1, 2, 3] : List Nat).length / 2))] :=
  train_loader_drops_last_val_loader_keeps 2 2 [1, 2, 3] [1, 2, 3]
    (by decide) (by decide) (by decide) (by decide)

/-- The run before any epoch is the initial state. -/
lemma runUpTo_zero (c : Collab P O T G) (pgn : Bool) (nE : Nat)
    (mc : String) (kw : List (String × JsonValue))
    (trainB : Nat → List (Batch T)) (valB : List (Batch T)) (p0 : P) (o0 : O) :
    runUpTo c pgn nE mc kw trainB valB p0 o0 0 = initRunState p0 o0 := rfl

/-- Unfolding of the epoch loop: running `k + 1` epochs is running `k`
epochs and then epoch `k + 1`. -/
lemma runUpTo_succ (c : Collab P O T G) (pgn : Bool) (nE : Nat)
    (mc : String) (kw : List (String × JsonValue))
    (trainB : Nat → List (Batch T)) (valB : List (Batch T)) (p0 : P) (o0 : O)
    (k : Nat) :
    runUpTo c pgn nE mc kw trainB valB p0 o0 (k + 1) =
      runEpoch c pgn nE mc kw (trainB (k + 1)) valB (k + 1)
        (runUpTo c pgn nE mc kw trainB valB p0 o0 k) := by
  rw [runUpTo, runUpTo, List.range'_concat, List.foldl_append]
  simp [Nat.add_comm]

/-- Every effect the training loop emits is a batch-progress print or a
gradient-norm print. -/
lemma trainPhase_effects_shape (c : Collab P O T G) (pgn mode : Bool)
    (ep nE : Nat) (p : P) (o : O) (B : List (Batch T)) :
    ∀ e ∈ (trainPhase c pgn mode ep nE p o B).2.2.2,
      (∃ a b i n q, e = Effect.printBatchProgress a b i n q) ∨
      (∃ ls, e = Effect.printGradNorm ls) := by
  rw [trainPhase]
  have H : ∀ (l : List (Nat × Batch T)) (acc : P × O × List ℚ × List (Effect P O)),
      (∀ e ∈ acc.2.2.2,
        (∃ a b i n q, e = Effect.printBatchProgress a b i n q) ∨
        (∃ ls, e = Effect.printGradNorm ls)) →
      ∀ e ∈ (l.foldl (trainStep c pgn mode ep nE B.length) acc).2.2.2,
        (∃ a b i n q, e = Effect.printBatchProgress a b i n q) ∨
        (∃ ls, e = Effect.printGradNorm ls) := by
    intro l
    induction l with
    | nil => intro acc hacc e he; exact hacc e he
    | cons ib l ih =>
      intro acc hacc
      rw [List.foldl_cons]
      refine ih _ ?_
      intro e he
      rw [trainStep] at he
      simp only [List.append_assoc, List.mem_append] at he
      rcases he with he | he | he
      · exact hacc e he
      · by_cases hp : pgn
        · simp only [hp, if_true, List.mem_singleton] at he
          exact Or.inr ⟨_, he⟩
        · simp at he
          exact absurd he.1 hp
      · simp only [List.mem_singleton] at he
        exact Or.inl ⟨_, _, _, _, _, he⟩
  exact H _ _ (by intro e he; simp at he)

/-- Every effect the validation loop emits is a sample-plot save. -/
lemma valPhase_effects_shape (c : Collab P O T G) (mode : Bool) (p : P)
    (B : List (Batch T)) :
    ∀ e ∈ (valPhase c mode p B).2.2,
      ∃ i, e = Effect.savePlot (RPath.valSamplePlot i) := by
  rw [valPhase]
  have H : ∀ (l : List (Nat × Batch T)) (acc : List ℚ × List TVal × List (Effect P O)),
      (∀ e ∈ acc.2.2, ∃ i, e = Effect.savePlot (RPath.valSamplePlot i)) →
      ∀ e ∈ (l.foldl (valStep c mode p) acc).2.2,
        ∃ i, e = Effect.savePlot (RPath.valSamplePlot i) := by
    intro l
    induction l with
    | nil => intro acc hacc e he; exact hacc e he
    | cons ib l ih =>
      intro acc hacc
      rw [List.foldl_cons]
      refine ih _ ?_
      intro e he
      rw [valStep] at he
      simp only [List.mem_append, List.mem_singleton] at he
      rcases he with he | he
      · exact hacc e he
      · exact ⟨_, he⟩
  exact H _ _ (by intro e he; simp at he)

/-- A trace of batch-progress and gradient-norm prints contains no
checkpoint save. -/
lemma savesOf_trainFx (c : Collab P O T G) (pgn mode : Bool) (ep nE : Nat)
    (p : P) (o : O) (B : List (Batch T)) :
    savesOf (trainPhase c pgn mode ep nE p o B).2.2.2 = [] := by
  rw [savesOf, List.filterMap_eq_nil_iff]
  intro e he
  rcases trainPhase_effects_shape c pgn mode ep nE p o B e he with
    ⟨a, b, i, n, q, rfl⟩ | ⟨ls, rfl⟩ <;> rfl

/-- The validation loop's trace contains no checkpoint save. -/
lemma savesOf_valFx (c : Collab P O T G) (mode : Bool) (p : P)
    (B : List (Batch T)) : savesOf (valPhase c mode p B).2.2 = [] := by
  rw [savesOf, List.filterMap_eq_nil_iff]
  intro e he
  rcases valPhase_effects_shape c mode p B e he with ⟨i, rfl⟩
  rfl

/-- The checkpoint saves of a concatenated trace. -/
lemma savesOf_append (l1 l2 : List (Effect P O)) :
    savesOf (l1 ++ l2) = savesOf l1 ++ savesOf l2 :=
  List.filterMap_append _ _ _

/-- The best-symlink maintenance effects contain no checkpoint save. -/
lemma savesOf_bestFx (doBest bestExists : Bool) (epoch : Nat) :
    @savesOf P O (bestFxOf doBest bestExists epoch) = [] := by
  rw [bestFxOf]
  cases doBest <;> cases bestExists <;> rfl

/-- An epoch appends exactly one checkpoint save: the current epoch's
checkpoint, at the current epoch's file. -/
lemma savesOf_epochDelta (c : Collab P O T G) (pgn : Bool) (nE : Nat)
    (mc : String) (kw : List (String × JsonValue))
    (trainB valB : List (Batch T)) (e : Nat) (s : RunState P O) :
    savesOf (epochDelta c pgn nE mc kw trainB valB e s) =
      [(RPath.epochFile e, epochCheckpoint c pgn nE mc kw trainB valB e s)] := by
  have ht : savesOf (epochTrainOut c pgn nE trainB e s).2.2.2 = [] :=
    savesOf_trainFx c pgn s.trainingMode e nE s.params s.optState trainB
  have hv : savesOf
      (valPhase c false (epochTrainOut c pgn nE trainB e s).1 valB).2.2 = [] :=
    savesOf_valFx c false _ valB
  have hb : @savesOf P O
      (bestFxOf
        (bestUpdate e s.val_psnr
          (epochPsnr c (epochTrainOut c pgn nE trainB e s).1 valB))
        s.bestExists e) = [] :=
    savesOf_bestFx _ _ _
  simp only [epochDelta]
  rw [savesOf_append, savesOf_append, savesOf_append, savesOf_append,
    savesOf_append, ht, hv, hb]
  rfl

/-- Characterization of the checkpoint saves of a `k`-epoch run: one per
epoch, in epoch order, each at its epoch's file, each the checkpoint the
epoch builds from the state in which the epoch started. -/
lemma savesOf_runUpTo (c : Collab P O T G) (pgn : Bool) (nE : Nat)
    (mc : String) (kw : List (String × JsonValue))
    (trainB : Nat → List (Batch T)) (valB : List (Batch T)) (p0 : P) (o0 : O)
    (k : Nat) :
    savesOf (runUpTo c pgn nE mc kw trainB valB p0 o0 k).effects =
      (List.range' 1 k).map (fun e =>
        (RPath.epochFile e,
         epochCheckpoint c pgn nE mc kw (trainB e) valB e
           (runUpTo c pgn nE mc kw trainB valB p0 o0 (e - 1)))) := by
  induction k with
  | zero => rfl
  | succ k ih =>
    rw [runUpTo_succ]
    show savesOf ((runUpTo c pgn nE mc kw trainB valB p0 o0 k).effects ++
      epochDelta c pgn nE mc kw (trainB (k + 1)) valB (k + 1)
        (runUpTo c pgn nE mc kw trainB valB p0 o0 k)) = _
    rw [savesOf_append, ih, savesOf_epochDelta, List.range'_concat,
      List.map_append]
    congr 1
    simp [Nat.add_comm]

/-- A `k`-epoch run persists exactly `k` checkpoint saves. -/
lemma savesOf_runUpTo_length (c : Collab P O T G) (pgn : Bool) (nE : Nat)
    (mc : String) (kw : List (String × JsonValue))
    (trainB : Nat → List (Batch T)) (valB : List (Batch T)) (p0 : P) (o0 : O)
    (k : Nat) :
    (savesOf (runUpTo c pgn nE mc kw trainB valB p0 o0 k).effects).length = k := by
  rw [savesOf_runUpTo]
  simp

/-- C4: every completed epoch persists exactly one checkpoint snapshot —
at the epoch's own file, so the files are pairwise distinct and their
number equals the number of completed epochs — and each snapshot carries
the model identity, the constructor keyword arguments, the parameter
state and optimizer state the epoch trained to, the epoch index, the
current validation PSNR, and the validation-loss history tensor. -/
theorem checkpoint_every_epoch (c : Collab P O T G) (pgn : Bool) (nE : Nat)
    (mc : String) (kw : List (String × JsonValue))
    (trainB : Nat → List (Batch T)) (valB : List (Batch T)) (p0 : P) (o0 : O) :
    (savesOf (runTraining c pgn nE mc kw trainB valB p0 o0).effects).map
        Prod.fst = (List.range' 1 nE).map RPath.epochFile ∧
    ((savesOf (runTraining c pgn nE mc kw trainB valB p0 o0).effects).map
        Prod.fst).Nodup ∧
    (savesOf (runTraining c pgn nE mc kw trainB valB p0 o0).effects).length =
      nE ∧
    ∀ pc ∈ savesOf (runTraining c pgn nE mc kw trainB valB p0 o0).effects,
      pc.2.model_class = mc ∧
      pc.2.model_kwargs = kw ∧
      1 ≤ pc.2.epoch ∧ pc.2.epoch ≤ nE ∧
      pc.1 = RPath.epochFile pc.2.epoch ∧
      pc.2.model_state_dict =
        (runUpTo c pgn nE mc kw trainB valB p0 o0 pc.2.epoch).params ∧
      pc.2.optimizer_state_dict =
        (runUpTo c pgn nE mc kw trainB valB p0 o0 pc.2.epoch).optState ∧
      pc.2.val_pnsr =
        (runUpTo c pgn nE mc kw trainB valB p0 o0 pc.2.epoch).val_psnr.getLastD
          TVal.nan ∧
      pc.2.val_loss =
        (runUpTo c pgn nE mc kw trainB valB p0 o0 pc.2.epoch).val_loss_avg ++
          List.replicate (nE - pc.2.epoch) (TVal.fin 0) := by
  have hchar := savesOf_runUpTo c pgn nE mc kw trainB valB p0 o0 nE
  have hfst : (savesOf (runTraining c pgn nE mc kw trainB valB p0 o0).effects).map
      Prod.fst = (List.range' 1 nE).map RPath.epochFile := by
    rw [runTraining, hchar, List.map_map]
    rfl
  refine ⟨hfst, ?_, ?_, ?_⟩
  · rw [hfst]
    exact (List.nodup_range' 1 nE).map
      (fun a b h => by injection h)
  · rw [runTraining, hchar]
    simp
  · intro pc hpc
    rw [runTraining, hchar] at hpc
    rcases List.mem_map.mp hpc with ⟨e, he, rfl⟩
    rcases List.mem_range'_1.mp he with ⟨he1, he2⟩
    have hee : e - 1 + 1 = e := Nat.succ_pred_eq_of_pos he1
    have hrun : runUpTo c pgn nE mc kw trainB valB p0 o0 e =
        runEpoch c pgn nE mc kw (trainB e) valB e
          (runUpTo c pgn nE mc kw trainB valB p0 o0 (e - 1)) := by
      conv_lhs => rw [← hee]
      rw [runUpTo_succ]
      rw [hee]
    refine ⟨rfl, rfl, he1, ?_, rfl, ?_, ?_, ?_, ?_⟩
    · show e ≤ nE
      omega
    · show (epochTrainOut c pgn nE (trainB e) e
        (runUpTo c pgn nE mc kw trainB valB p0 o0 (e - 1))).1 =
        (runUpTo c pgn nE mc kw trainB valB p0 o0 e).params
      rw [hrun]
      rfl
    · show (epochTrainOut c pgn nE (trainB e) e
        (runUpTo c pgn nE mc kw trainB valB p0 o0 (e - 1))).2.1 =
        (runUpTo c pgn nE mc kw trainB valB p0 o0 e).optState
      rw [hrun]
      rfl
    · show epochPsnr c (epochTrainOut c pgn nE (trainB e) e
        (runUpTo c pgn nE mc kw trainB valB p0 o0 (e - 1))).1 valB =
        (runUpTo c pgn nE mc kw trainB valB p0 o0 e).val_psnr.getLastD TVal.nan
      rw [hrun]
      show _ = ((runUpTo c pgn nE mc kw trainB valB p0 o0 (e - 1)).val_psnr ++
        [epochPsnr c (epochTrainOut c pgn nE (trainB e) e
          (runUpTo c pgn nE mc kw trainB valB p0 o0 (e - 1))).1 valB]).getLastD
          TVal.nan
      rw [List.getLastD_concat]
    · show (runUpTo c pgn nE mc kw trainB valB p0 o0 (e - 1)).val_loss_avg ++
        [epochValLoss c (epochTrainOut c pgn nE (trainB e) e
          (runUpTo c pgn nE mc kw trainB valB p0 o0 (e - 1))).1 valB] ++
        List.replicate (nE - e) (TVal.fin 0) =
        (runUpTo c pgn nE mc kw trainB valB p0 o0 e).val_loss_avg ++
          List.replicate (nE - e) (TVal.fin 0)
      rw [hrun]
      rfl

/-- Witness for C4 on the concrete 5-epoch run. -/
theorem checkpoint_every_epoch_witness :
    (savesOf (runTraining exCollab false 5 "UNet3D" []
        (fun _ => [exBatch]) [exBatch] 0 ()).effects).length = 5 ∧
    ∀ pc ∈ savesOf (runTraining exCollab false 5 "UNet3D" []
        (fun _ => [exBatch]) [exBatch] 0 ()).effects,
      pc.2.model_class = "UNet3D" :=
  ⟨(checkpoint_every_epoch exCollab false 5 "UNet3D" []
      (fun _ => [exBatch]) [exBatch] 0 ()).2.2.1,
   fun pc hpc => ((checkpoint_every_epoch exCollab false 5 "UNet3D" []
      (fun _ => [exBatch]) [exBatch] 0 ()).2.2.2 pc hpc).1⟩

/-- C7: when the filtered, sorted listing is shorter than the sum of the
requested training and validation sizes, the slicing raises no error:
the validation list silently gets all entries past the training slice —
fewer than requested, empty whenever the listing does not even reach the
training size — and the run proceeds, still persisting one checkpoint
per epoch. -/
theorem undersupply_truncates_validation (L : List String) (cl : String)
    (nTr nVal : Nat) (h : (all_data_dirs L cl).length < nTr + nVal) :
    (val_dirs L cl nTr nVal).length = (all_data_dirs L cl).length - nTr ∧
    ((val_dirs L cl nTr nVal).length < nVal ∨
      (val_dirs L cl nTr nVal).length = 0) ∧
    ((all_data_dirs L cl).length ≤ nTr → val_dirs L cl nTr nVal = []) ∧
    (∀ (P O T G : Type) (c : Collab P O T G) (pgn : Bool) (nE : Nat)
      (mc : String) (kw : List (String × JsonValue))
      (trainB : Nat → List (Batch T)) (valB : List (Batch T)) (p0 : P)
      (o0 : O),
      (savesOf (runTraining c pgn nE mc kw trainB valB p0 o0).effects).length =
        nE) := by
  have h1 : (val_dirs L cl nTr nVal).length =
      min nVal ((all_data_dirs L cl).length - nTr) := by
    rw [val_dirs, List.length_take, List.length_drop]
  have h2 : (val_dirs L cl nTr nVal).length =
      (all_data_dirs L cl).length - nTr := by
    rw [h1]
    exact min_eq_right (by omega)
  refine ⟨h2, by omega, ?_, ?_⟩
  · intro hle
    rw [val_dirs, List.drop_eq_nil_of_le hle, List.take_nil]
  · intro P O T G c pgn nE mc kw trainB valB p0 o0
    exact savesOf_runUpTo_length c pgn nE mc kw trainB valB p0 o0 nE

/-- Witness for C7: one matching directory, two requested training and
two requested validation samples. -/
theorem undersupply_truncates_validation_witness :
    (all_data_dirs ["subject1_countlevel_1.0_a"] ("1.0")).length < 2 + 2 ∧
    (val_dirs ["subject1_countlevel_1.0_a"] ("1.0") 2 2).length =
      (all_data_dirs ["subject1_countlevel_1.0_a"] ("1.0")).length - 2 ∧
    ((val_dirs ["subject1_countlevel_1.0_a"] ("1.0") 2 2).length < 2 ∨
      (val_dirs ["subject1_countlevel_1.0_a"] ("1.0") 2 2).length = 0) ∧
    ((all_data_dirs ["subject1_countlevel_1.0_a"] ("1.0")).length ≤ 2 →
      val_dirs ["subject1_countlevel_1.0_a"] ("1.0") 2 2 = []) := by
  have hlen : (all_data_dirs ["subject1_countlevel_1.0_a"] ("1.0")).length ≤ 1 := by
    rw [all_data_dirs, List.length_mergeSort]
    exact List.length_filter_le _ _
  have h : (all_data_dirs ["subject1_countlevel_1.0_a"] ("1.0")).length < 2 + 2 := by
    omega
  rcases undersupply_truncates_validation ["subject1_countlevel_1.0_a"] ("1.0")
    2 2 h with ⟨ha, hb, hc, _⟩
  exact ⟨h, ha, hb, hc⟩

/-- C8: with an empty validation loader the epoch still completes: the
validation loop yields no losses, no PSNR values and no plots, the
aggregated metrics are torch's NaN mean-of-empty rather than an error,
the checkpoint is still saved, and the epoch's trace still ends with the
regenerated metrics figure. -/
theorem empty_validation_no_crash (c : Collab P O T G) (pgn : Bool)
    (nE : Nat) (mc : String) (kw : List (String × JsonValue))
    (trainB : List (Batch T)) (e : Nat) (s : RunState P O) :
    valPhase c false (epochTrainOut c pgn nE trainB e s).1
      ([] : List (Batch T)) = ([], [], []) ∧
    (runEpoch c pgn nE mc kw trainB [] e s).val_psnr =
      s.val_psnr ++ [TVal.nan] ∧
    (runEpoch c pgn nE mc kw trainB [] e s).val_loss_avg =
      s.val_loss_avg ++ [TVal.nan] ∧
    ((runEpoch c pgn nE mc kw trainB [] e s).effects).getLast? =
      some (Effect.savePlot RPath.metricsPdf) ∧
    (savesOf (runEpoch c pgn nE mc kw trainB [] e s).effects).length =
      (savesOf s.effects).length + 1 := by
  refine ⟨rfl, rfl, rfl, ?_, ?_⟩
  · obtain ⟨X, hX⟩ : ∃ X, epochDelta c pgn nE mc kw trainB [] e s =
        X ++ [Effect.savePlot RPath.metricsPdf] := ⟨_, rfl⟩
    show (s.effects ++ epochDelta c pgn nE mc kw trainB [] e s).getLast? = _
    rw [hX, ← List.append_assoc, List.getLast?_concat]
  · show (savesOf (s.effects ++
      epochDelta c pgn nE mc kw trainB [] e s)).length = _
    rw [savesOf_append, savesOf_epochDelta]
    simp

/-- The training loop's trace contains no `model.train()` or
`model.eval()` marker and no checkpoint-save-unrelated markers beyond
prints. -/
lemma trainFx_countP_zero (c : Collab P O T G) (pgn mode : Bool)
    (ep nE : Nat) (p : P) (o : O) (B : List (Batch T)) (pr : Effect P O → Bool)
    (hpr1 : ∀ a b i n q, pr (Effect.printBatchProgress a b i n q) = false)
    (hpr2 : ∀ ls, pr (Effect.printGradNorm ls) = false) :
    List.countP pr (trainPhase c pgn mode ep nE p o B).2.2.2 = 0 := by
  rw [List.countP_eq_zero]
  intro e he
  rcases trainPhase_effects_shape c pgn mode ep nE p o B e he with
    ⟨a, b, i, n, q, rfl⟩ | ⟨ls, rfl⟩
  · simp [hpr1]
  · simp [hpr2]

/-- The validation loop's trace contains only sample-plot saves. -/
lemma valFx_countP_zero (c : Collab P O T G) (mode : Bool) (p : P)
    (B : List (Batch T)) (pr : Effect P O → Bool)
    (hpr : ∀ i, pr (Effect.savePlot (RPath.valSamplePlot i)) = false) :
    List.countP pr (valPhase c mode p B).2.2 = 0 := by
  rw [List.countP_eq_zero]
  intro e he
  rcases valPhase_effects_shape c mode p B e he with ⟨i, rfl⟩
  simp [hpr]

/-- One epoch emits exactly one `model.eval()` marker. -/
lemma countP_isModelEval_epochDelta (c : Collab P O T G) (pgn : Bool)
    (nE : Nat) (mc : String) (kw : List (String × JsonValue))
    (trainB valB : List (Batch T)) (e : Nat) (s : RunState P O) :
    List.countP isModelEval (epochDelta c pgn nE mc kw trainB valB e s) = 1 := by
  have ht : List.countP isModelEval
      (epochTrainOut c pgn nE trainB e s).2.2.2 = 0 :=
    trainFx_countP_zero c pgn s.trainingMode e nE s.params s.optState trainB
      isModelEval (fun _ _ _ _ _ => rfl) (fun _ => rfl)
  have hv : List.countP isModelEval
      (valPhase c false (epochTrainOut c pgn nE trainB e s).1 valB).2.2 = 0 :=
    valFx_countP_zero c false _ valB isModelEval (fun _ => rfl)
  have hb : List.countP isModelEval
      (bestFxOf
        (bestUpdate e s.val_psnr
          (epochPsnr c (epochTrainOut c pgn nE trainB e s).1 valB))
        s.bestExists e : List (Effect P O)) = 0 := by
    rw [bestFxOf]
    cases bestUpdate e s.val_psnr
        (epochPsnr c (epochTrainOut c pgn nE trainB e s).1 valB) <;>
      cases s.bestExists <;> rfl
  simp only [epochDelta]
  rw [List.countP_append, List.countP_append, List.countP_append,
    List.countP_append, List.countP_append, ht, hv, hb]
  rfl

/-- One epoch emits no `model.train()` marker. -/
lemma countP_isModelTrain_epochDelta (c : Collab P O T G) (pgn : Bool)
    (nE : Nat) (mc : String) (kw : List (String × JsonValue))
    (trainB valB : List (Batch T)) (e : Nat) (s : RunState P O) :
    List.countP isModelTrain (epochDelta c pgn nE mc kw trainB valB e s) = 0 := by
  have ht : List.countP isModelTrain
      (epochTrainOut c pgn nE trainB e s).2.2.2 = 0 :=
    trainFx_countP_zero c pgn s.trainingMode e nE s.params s.optState trainB
      isModelTrain (fun _ _ _ _ _ => rfl) (fun _ => rfl)
  have hv : List.countP isModelTrain
      (valPhase c false (epochTrainOut c pgn nE trainB e s).1 valB).2.2 = 0 :=
    valFx_countP_zero c false _ valB isModelTrain (fun _ => rfl)
  have hb : List.countP isModelTrain
      (bestFxOf
        (bestUpdate e s.val_psnr
          (epochPsnr c (epochTrainOut c pgn nE trainB e s).1 valB))
        s.bestExists e : List (Effect P O)) = 0 := by
    rw [bestFxOf]
    cases bestUpdate e s.val_psnr
        (epochPsnr c (epochTrainOut c pgn nE trainB e s).1 valB) <;>
      cases s.bestExists <;> rfl
  simp only [epochDelta]
  rw [List.countP_append, List.countP_append, List.countP_append,
    List.countP_append, List.countP_append, ht, hv, hb]
  rfl

/-- A `k`-epoch run calls `model.eval()` exactly `k` times. -/
lemma countP_isModelEval_runUpTo (c : Collab P O T G) (pgn : Bool) (nE : Nat)
    (mc : String) (kw : List (String × JsonValue))
    (trainB : Nat → List (Batch T)) (valB : List (Batch T)) (p0 : P) (o0 : O)
    (k : Nat) :
    List.countP isModelEval
      (runUpTo c pgn nE mc kw trainB valB p0 o0 k).effects = k := by
  induction k with
  | zero => rfl
  | succ k ih =>
    rw [runUpTo_succ]
    show List.countP isModelEval
      ((runUpTo c pgn nE mc kw trainB valB p0 o0 k).effects ++
        epochDelta c pgn nE mc kw (trainB (k + 1)) valB (k + 1)
          (runUpTo c pgn nE mc kw trainB valB p0 o0 k)) = k + 1
    rw [List.countP_append, ih, countP_isModelEval_epochDelta]

/-- A `k`-epoch run calls `model.train()` exactly once. -/
lemma countP_isModelTrain_runUpTo (c : Collab P O T G) (pgn : Bool) (nE : Nat)
    (mc : String) (kw : List (String × JsonValue))
    (trainB : Nat → List (Batch T)) (valB : List (Batch T)) (p0 : P) (o0 : O)
    (k : Nat) :
    List.countP isModelTrain
      (runUpTo c pgn nE mc kw trainB valB p0 o0 k).effects = 1 := by
  induction k with
  | zero => rfl
  | succ k ih =>
    rw [runUpTo_succ]
    show List.countP isModelTrain
      ((runUpTo c pgn nE mc kw trainB valB p0 o0 k).effects ++
        epochDelta c pgn nE mc kw (trainB (k + 1)) valB (k + 1)
          (runUpTo c pgn nE mc kw trainB valB p0 o0 k)) = 1
    rw [List.countP_append, ih, countP_isModelTrain_epochDelta]

/-- The `model.train()` call opens the trace of every run. -/
lemma runUpTo_effects_head (c : Collab P O T G) (pgn : Bool) (nE : Nat)
    (mc : String) (kw : List (String × JsonValue))
    (trainB : Nat → List (Batch T)) (valB : List (Batch T)) (p0 : P) (o0 : O)
    (k : Nat) :
    ∃ rest, (runUpTo c pgn nE mc kw trainB valB p0 o0 k).effects =
      Effect.modelTrain :: rest := by
  induction k with
  | zero => exact ⟨[], rfl⟩
  | succ k ih =>
    obtain ⟨rest, hrest⟩ := ih
    rw [runUpTo_succ]
    refine ⟨rest ++ epochDelta c pgn nE mc kw (trainB (k + 1)) valB (k + 1)
      (runUpTo c pgn nE mc kw trainB valB p0 o0 k), ?_⟩
    show (runUpTo c pgn nE mc kw trainB valB p0 o0 k).effects ++
      epochDelta c pgn nE mc kw (trainB (k + 1)) valB (k + 1)
        (runUpTo c pgn nE mc kw trainB valB p0 o0 k) = _
    rw [hrest]
    rfl

/-- C9: `model.train()` is marked exactly once, at the head of the trace
(before the epoch loop); every epoch marks `model.eval()` once and
nothing ever switches the mode back, so the model enters every epoch
after the first in evaluation mode and its training batches are
processed with the forward pass in evaluation mode. -/
theorem eval_mode_after_first_epoch (c : Collab P O T G) (pgn : Bool)
    (nE : Nat) (mc : String) (kw : List (String × JsonValue))
    (trainB : Nat → List (Batch T)) (valB : List (Batch T)) (p0 : P)
    (o0 : O) :
    (runUpTo c pgn nE mc kw trainB valB p0 o0 0).trainingMode = true ∧
    (∀ k, 1 ≤ k →
      (runUpTo c pgn nE mc kw trainB valB p0 o0 k).trainingMode = false) ∧
    (∀ k, List.countP isModelTrain
      (runUpTo c pgn nE mc kw trainB valB p0 o0 k).effects = 1) ∧
    (∀ k, List.countP isModelEval
      (runUpTo c pgn nE mc kw trainB valB p0 o0 k).effects = k) ∧
    (∀ k, ((runUpTo c pgn nE mc kw trainB valB p0 o0 k).effects).head? =
      some Effect.modelTrain) ∧
    (∀ e, 2 ≤ e →
      epochTrainOut c pgn nE (trainB e) e
          (runUpTo c pgn nE mc kw trainB valB p0 o0 (e - 1)) =
        trainPhase c pgn false e nE
          (runUpTo c pgn nE mc kw trainB valB p0 o0 (e - 1)).params
          (runUpTo c pgn nE mc kw trainB valB p0 o0 (e - 1)).optState
          (trainB e)) := by
  have hmode : ∀ k, 1 ≤ k →
      (runUpTo c pgn nE mc kw trainB valB p0 o0 k).trainingMode = false := by
    intro k hk
    cases k with
    | zero => omega
    | succ k =>
      rw [runUpTo_succ]
      rfl
  refine ⟨rfl, hmode, ?_, ?_, ?_, ?_⟩
  · exact countP_isModelTrain_runUpTo c pgn nE mc kw trainB valB p0 o0
  · exact countP_isModelEval_runUpTo c pgn nE mc kw trainB valB p0 o0
  · intro k
    obtain ⟨rest, hrest⟩ :=
      runUpTo_effects_head c pgn nE mc kw trainB valB p0 o0 k
    rw [hrest]
    rfl
  · intro e he
    rw [epochTrainOut, hmode (e - 1) (by omega)]

/-- Witness for C9 on the concrete run: after two epochs the mode is
evaluation, one `model.train()` and two `model.eval()` markers are in
the trace, and epoch 2's training phase runs in evaluation mode. -/
theorem eval_mode_after_first_epoch_witness :
    (runUpTo exCollab false 5 "UNet3D" [] (fun _ => [exBatch]) [exBatch]
      0 () 2).trainingMode = false ∧
    List.countP isModelEval
      (runUpTo exCollab false 5 "UNet3D" [] (fun _ => [exBatch]) [exBatch]
        0 () 2).effects = 2 ∧
    epochTrainOut exCollab false 5 [exBatch] 2
        (runUpTo exCollab false 5 "UNet3D" [] (fun _ => [exBatch]) [exBatch]
          0 () (2 - 1)) =
      trainPhase exCollab false false 2 5
        (runUpTo exCollab false 5 "UNet3D" [] (fun _ => [exBatch]) [exBatch]
          0 () (2 - 1)).params
        (runUpTo exCollab false 5 "UNet3D" [] (fun _ => [exBatch]) [exBatch]
          0 () (2 - 1)).optState [exBatch] :=
  ⟨(eval_mode_after_first_epoch exCollab false 5 "UNet3D" []
      (fun _ => [exBatch]) [exBatch] 0 ()).2.1 2 (by omega),
   (eval_mode_after_first_epoch exCollab false 5 "UNet3D" []
      (fun _ => [exBatch]) [exBatch] 0 ()).2.2.2.1 2,
   (eval_mode_after_first_epoch exCollab false 5 "UNet3D" []
      (fun _ => [exBatch]) [exBatch] 0 ()).2.2.2.2.2 2 (by omega)⟩

/-- C5: after the validation loop the model parameters and optimizer
state are exactly those produced by the epoch's last optimizer step —
the end-of-epoch state's `params`/`optState` are the training phase's
output — and the validation loop consults only the forward pass, the
loss and the PSNR metric: it is insensitive to the gradient and
optimizer collaborators, having gradient tracking disabled and never
invoking an optimizer step. -/
theorem validation_mutates_nothing (c c' : Collab P O T G) (pgn : Bool)
    (nE : Nat) (mc : String) (kw : List (String × JsonValue))
    (trainB valB : List (Batch T)) (e : Nat) (s : RunState P O)
    (mode : Bool) (p : P) (B : List (Batch T)) :
    (runEpoch c pgn nE mc kw trainB valB e s).params =
      (epochTrainOut c pgn nE trainB e s).1 ∧
    (runEpoch c pgn nE mc kw trainB valB e s).optState =
      (epochTrainOut c pgn nE trainB e s).2.1 ∧
    (c.fwd = c'.fwd → c.criterion = c'.criterion → c.psnrF = c'.psnrF →
      valPhase c mode p B = valPhase c' mode p B) := by
  refine ⟨rfl, rfl, ?_⟩
  intro hf hc hp
  rw [valPhase, valPhase]
  have hstep : valStep c mode p = valStep c' mode p := by
    funext acc ib
    rw [valStep, valStep, hf, hc, hp]
  rw [hstep]

/-- Witness for C5: two collaborator instances differing only in the
optimizer step produce identical validation output. -/
theorem validation_mutates_nothing_witness :
    (runEpoch exCollab false 5 "UNet3D" [] [exBatch] [exBatch] 1
      (initRunState 0 ())).params =
      (epochTrainOut exCollab false 5 [exBatch] 1 (initRunState 0 ())).1 ∧
    valPhase exCollab false 3 [exBatch] = valPhase exCollab2 false 3 [exBatch] :=
  ⟨(validation_mutates_nothing exCollab exCollab2 false 5 "UNet3D" []
      [exBatch] [exBatch] 1 (initRunState 0 ()) false 3 [exBatch]).1,
   (validation_mutates_nothing exCollab exCollab2 false 5 "UNet3D" []
      [exBatch] [exBatch] 1 (initRunState 0 ()) false 3 [exBatch]).2.2
     rfl rfl rfl⟩

/-- Filtering out the gradient-norm prints distributes over
concatenation. -/
lemma nonGradFx_append (a b : List (Effect P O)) :
    nonGradFx (a ++ b) = nonGradFx a ++ nonGradFx b :=
  List.filter_append _ _

/-- Simulation of the training fold under the two settings of the
gradient-norm flag: parameters, optimizer state and recorded losses
agree, and the traces agree once gradient-norm prints are removed. -/
lemma trainFold_pgn_sim (c : Collab P O T G) (mode : Bool) (ep nE nB : Nat) :
    ∀ (l : List (Nat × Batch T)) (p : P) (o : O) (ls : List ℚ)
      (fx1 fx0 : List (Effect P O)),
      nonGradFx fx1 = nonGradFx fx0 →
      (l.foldl (trainStep c true mode ep nE nB) (p, o, ls, fx1)).1 =
        (l.foldl (trainStep c false mode ep nE nB) (p, o, ls, fx0)).1 ∧
      (l.foldl (trainStep c true mode ep nE nB) (p, o, ls, fx1)).2.1 =
        (l.foldl (trainStep c false mode ep nE nB) (p, o, ls, fx0)).2.1 ∧
      (l.foldl (trainStep c true mode ep nE nB) (p, o, ls, fx1)).2.2.1 =
        (l.foldl (trainStep c false mode ep nE nB) (p, o, ls, fx0)).2.2.1 ∧
      nonGradFx (l.foldl (trainStep c true mode ep nE nB) (p, o, ls, fx1)).2.2.2 =
        nonGradFx (l.foldl (trainStep c false mode ep nE nB) (p, o, ls, fx0)).2.2.2 := by
  intro l
  induction l with
  | nil =>
    intro p o ls fx1 fx0 h
    exact ⟨rfl, rfl, rfl, h⟩
  | cons ib l ih =>
    intro p o ls fx1 fx0 h
    rw [List.foldl_cons, List.foldl_cons]
    have e1 : trainStep c true mode ep nE nB (p, o, ls, fx1) ib =
        ((c.optStep p o (c.backward mode p ib.2.input ib.2.target)).1,
         (c.optStep p o (c.backward mode p ib.2.input ib.2.target)).2,
         ls ++ [c.criterion (c.fwd mode p ib.2.input) ib.2.target],
         (fx1 ++ [Effect.printGradNorm (c.gradNormLines
            (c.backward mode p ib.2.input ib.2.target))]) ++
           [Effect.printBatchProgress ep nE ib.1 nB
             (c.criterion (c.fwd mode p ib.2.input) ib.2.target)]) := rfl
    have e0 : trainStep c false mode ep nE nB (p, o, ls, fx0) ib =
        ((c.optStep p o (c.backward mode p ib.2.input ib.2.target)).1,
         (c.optStep p o (c.backward mode p ib.2.input ib.2.target)).2,
         ls ++ [c.criterion (c.fwd mode p ib.2.input) ib.2.target],
         (fx0 ++ []) ++
           [Effect.printBatchProgress ep nE ib.1 nB
             (c.criterion (c.fwd mode p ib.2.input) ib.2.target)]) := rfl
    rw [e1, e0]
    refine ih _ _ _ _ _ ?_
    rw [nonGradFx_append, nonGradFx_append, nonGradFx_append,
      nonGradFx_append, h]
    rfl

/-- With the flag off, the training fold emits no gradient-norm
print. -/
lemma trainFold_false_no_gradnorm (c : Collab P O T G) (mode : Bool)
    (ep nE nB : Nat) :
    ∀ (l : List (Nat × Batch T)) (acc : P × O × List ℚ × List (Effect P O)),
      List.countP isGradNormPrint acc.2.2.2 = 0 →
      List.countP isGradNormPrint
        (l.foldl (trainStep c false mode ep nE nB) acc).2.2.2 = 0 := by
  intro l
  induction l with
  | nil => intro acc h; exact h
  | cons ib l ih =>
    intro acc h
    rw [List.foldl_cons]
    refine ih _ ?_
    show List.countP isGradNormPrint
      ((acc.2.2.2 ++ []) ++
        [Effect.printBatchProgress ep nE ib.1 nB
          (c.criterion (c.fwd mode acc.1 ib.2.input) ib.2.target)]) = 0
    rw [List.countP_append, List.countP_append, h]
    rfl

/-- Simulation of one epoch under the two settings of the gradient-norm
flag: from states agreeing except possibly in gradient-norm prints, the
epoch produces states agreeing except possibly in gradient-norm
prints. -/
lemma runEpoch_pgn_sim (c : Collab P O T G) (nE : Nat) (mc : String)
    (kw : List (String × JsonValue)) (trainB valB : List (Batch T)) (e : Nat)
    (s1 s0 : RunState P O) (hobs : stateObs s1 = stateObs s0)
    (hfx : nonGradFx s1.effects = nonGradFx s0.effects) :
    stateObs (runEpoch c true nE mc kw trainB valB e s1) =
      stateObs (runEpoch c false nE mc kw trainB valB e s0) ∧
    nonGradFx (runEpoch c true nE mc kw trainB valB e s1).effects =
      nonGradFx (runEpoch c false nE mc kw trainB valB e s0).effects := by
  obtain ⟨p1, o1, m1, tl1, vl1, vp1, be1, bt1, fxA⟩ := s1
  obtain ⟨p0, o0, m0, tl0, vl0, vp0, be0, bt0, fxB⟩ := s0
  simp only [stateObs, Prod.mk.injEq] at hobs
  obtain ⟨rfl, rfl, rfl, rfl, rfl, rfl, rfl, rfl⟩ := hobs
  simp only at hfx
  have hsim := trainFold_pgn_sim c m1 e nE trainB.length trainB.enum
    p1 o1 [] [] [] rfl
  have hp : (trainPhase c true m1 e nE p1 o1 trainB).1 =
      (trainPhase c false m1 e nE p1 o1 trainB).1 := hsim.1
  have ho : (trainPhase c true m1 e nE p1 o1 trainB).2.1 =
      (trainPhase c false m1 e nE p1 o1 trainB).2.1 := hsim.2.1
  have hl : (trainPhase c true m1 e nE p1 o1 trainB).2.2.1 =
      (trainPhase c false m1 e nE p1 o1 trainB).2.2.1 := hsim.2.2.1
  have hng : nonGradFx (trainPhase c true m1 e nE p1 o1 trainB).2.2.2 =
      nonGradFx (trainPhase c false m1 e nE p1 o1 trainB).2.2.2 := hsim.2.2.2
  constructor
  · dsimp only [runEpoch, stateObs, epochTrainOut]
    rw [hp, ho, hl]
  · dsimp only [runEpoch, epochTrainOut, epochDelta, epochCheckpoint]
    simp only [nonGradFx_append]
    rw [hp, ho, hl, hng, hfx]

/-- Run-level simulation: the two flag settings produce, after every
number of epochs, the same state and the same trace modulo gradient-norm
prints. -/
lemma runUpTo_pgn_sim (c : Collab P O T G) (nE : Nat) (mc : String)
    (kw : List (String × JsonValue)) (trainB : Nat → List (Batch T))
    (valB : List (Batch T)) (p0 : P) (o0 : O) (k : Nat) :
    stateObs (runUpTo c true nE mc kw trainB valB p0 o0 k) =
      stateObs (runUpTo c false nE mc kw trainB valB p0 o0 k) ∧
    nonGradFx (runUpTo c true nE mc kw trainB valB p0 o0 k).effects =
      nonGradFx (runUpTo c false nE mc kw trainB valB p0 o0 k).effects := by
  induction k with
  | zero => exact ⟨rfl, rfl⟩
  | succ k ih =>
    rw [runUpTo_succ, runUpTo_succ]
    exact runEpoch_pgn_sim c nE mc kw (trainB (k + 1)) valB (k + 1) _ _
      ih.1 ih.2

/-- With the flag off, an epoch emits no gradient-norm print. -/
lemma countP_gradnorm_epochDelta_false (c : Collab P O T G) (nE : Nat)
    (mc : String) (kw : List (String × JsonValue))
    (trainB valB : List (Batch T)) (e : Nat) (s : RunState P O) :
    List.countP isGradNormPrint
      (epochDelta c false nE mc kw trainB valB e s) = 0 := by
  have ht : List.countP isGradNormPrint
      (trainPhase c false s.trainingMode e nE s.params s.optState
        trainB).2.2.2 = 0 :=
    trainFold_false_no_gradnorm c s.trainingMode e nE trainB.length
      trainB.enum (s.params, s.optState, [], []) rfl
  have hv : List.countP isGradNormPrint
      (valPhase c false (epochTrainOut c false nE trainB e s).1 valB).2.2 = 0 :=
    valFx_countP_zero c false _ valB isGradNormPrint (fun _ => rfl)
  have hb : List.countP isGradNormPrint
      (bestFxOf
        (bestUpdate e s.val_psnr
          (epochPsnr c (epochTrainOut c false nE trainB e s).1 valB))
        s.bestExists e : List (Effect P O)) = 0 := by
    rw [bestFxOf]
    cases bestUpdate e s.val_psnr
        (epochPsnr c (epochTrainOut c false nE trainB e s).1 valB) <;>
      cases s.bestExists <;> rfl
  simp only [epochDelta]
  rw [List.countP_append, List.countP_append, List.countP_append,
    List.countP_append, List.countP_append]
  have ht' : List.countP isGradNormPrint
      (epochTrainOut c false nE trainB e s).2.2.2 = 0 := ht
  rw [ht', hv, hb]
  rfl

/-- With the flag off, the whole run emits no gradient-norm print. -/
lemma countP_gradnorm_runUpTo_false (c : Collab P O T G) (nE : Nat)
    (mc : String) (kw : List (String × JsonValue))
    (trainB : Nat → List (Batch T)) (valB : List (Batch T)) (p0 : P) (o0 : O)
    (k : Nat) :
    List.countP isGradNormPrint
      (runUpTo c false nE mc kw trainB valB p0 o0 k).effects = 0 := by
  induction k with
  | zero => rfl
  | succ k ih =>
    rw [runUpTo_succ]
    show List.countP isGradNormPrint
      ((runUpTo c false nE mc kw trainB valB p0 o0 k).effects ++
        epochDelta c false nE mc kw (trainB (k + 1)) valB (k + 1)
          (runUpTo c false nE mc kw trainB valB p0 o0 k)) = 0
    rw [List.countP_append, ih, countP_gradnorm_epochDelta_false]

/-- Removing gradient-norm prints from a trace removes no checkpoint
save. -/
lemma savesOf_nonGradFx (l : List (Effect P O)) :
    savesOf (nonGradFx l) = savesOf l := by
  induction l with
  | nil => rfl
  | cons e l ih =>
    cases e with
    | modelTrain => exact ih
    | modelEval => exact ih
    | printBatchProgress a b i n q => exact ih
    | printGradNorm ls => exact ih
    | printEpochTrainLoss a b bl => exact ih
    | printEpochValLoss a b v => exact ih
    | printEpochValPsnr a b v => exact ih
    | printBestSymlink t => exact ih
    | saveCheckpoint p ck => exact congrArg (List.cons (p, ck)) ih
    | unlink p => exact ih
    | symlink a b => exact ih
    | savePlot p => exact ih

/-- C6: the gradient-norm diagnostic flag is observability only — runs
differing only in the flag agree, after every number of epochs, on the
whole run state (parameters, optimizer state, mode, all metric
histories, best pointer), on the persisted checkpoints, and on the
entire effect trace once gradient-norm prints are removed; with the flag
off the trace contains no gradient-norm print at all, so the flag only
adds printed output. -/
theorem print_gradient_norms_observational (c : Collab P O T G) (nE : Nat)
    (mc : String) (kw : List (String × JsonValue))
    (trainB : Nat → List (Batch T)) (valB : List (Batch T)) (p0 : P)
    (o0 : O) :
    (∀ k, stateObs (runUpTo c true nE mc kw trainB valB p0 o0 k) =
      stateObs (runUpTo c false nE mc kw trainB valB p0 o0 k)) ∧
    (∀ k, savesOf (runUpTo c true nE mc kw trainB valB p0 o0 k).effects =
      savesOf (runUpTo c false nE mc kw trainB valB p0 o0 k).effects) ∧
    (∀ k, nonGradFx (runUpTo c true nE mc kw trainB valB p0 o0 k).effects =
      nonGradFx (runUpTo c false nE mc kw trainB valB p0 o0 k).effects) ∧
    (∀ k, List.countP isGradNormPrint
      (runUpTo c false nE mc kw trainB valB p0 o0 k).effects = 0) := by
  refine ⟨fun k => (runUpTo_pgn_sim c nE mc kw trainB valB p0 o0 k).1,
    fun k => ?_,
    fun k => (runUpTo_pgn_sim c nE mc kw trainB valB p0 o0 k).2,
    countP_gradnorm_runUpTo_false c nE mc kw trainB valB p0 o0⟩
  rw [← savesOf_nonGradFx ((runUpTo c true nE mc kw trainB valB p0 o0 k).effects),
    ← savesOf_nonGradFx ((runUpTo c false nE mc kw trainB valB p0 o0 k).effects),
    (runUpTo_pgn_sim c nE mc kw trainB valB p0 o0 k).2]

/-- Strict comparison is irreflexive, also on NaN (IEEE: `nan > nan` is
false). -/
lemma TVal.gtB_self (v : TVal) : TVal.gtB v v = false := by
  cases v with
  | nan => rfl
  | fin q => simp [TVal.gtB]

/-- Folding `maxT` over finite values stays finite and computes the
rational fold of `max`. -/
lemma foldl_maxT_map_fin (qs : List ℚ) : ∀ a : ℚ,
    (qs.map TVal.fin).foldl TVal.maxT (TVal.fin a) =
      TVal.fin (qs.foldl max a) := by
  induction qs with
  | nil => intro a; rfl
  | cons r rs ih =>
    intro a
    rw [List.map_cons, List.foldl_cons, List.foldl_cons]
    exact ih (max a r)

/-- `tensor.max()` of a nonempty tensor of finite values. -/
lemma torchMax_map_fin (q : ℚ) (qs : List ℚ) :
    torchMax ((q :: qs).map TVal.fin) = TVal.fin (qs.foldl max q) := by
  rw [List.map_cons, torchMax]
  exact foldl_maxT_map_fin qs q

/-- A fold of `max` lies strictly below a bound iff every folded value
does. -/
lemma foldl_max_lt_iff (c : ℚ) : ∀ (qs : List ℚ) (a : ℚ),
    qs.foldl max a < c ↔ a < c ∧ ∀ r ∈ qs, r < c := by
  intro qs
  induction qs with
  | nil => intro a; simp
  | cons r rs ih =>
    intro a
    rw [List.foldl_cons, ih (max a r), max_lt_iff]
    constructor
    · rintro ⟨⟨ha, hr⟩, hrs⟩
      exact ⟨ha, by
        intro x hx
        rcases List.mem_cons.mp hx with rfl | hx
        · exact hr
        · exact hrs x hx⟩
    · rintro ⟨ha, h⟩
      exact ⟨⟨ha, h r (List.mem_cons_self r rs)⟩,
        fun x hx => h x (List.mem_cons_of_mem r hx)⟩

/-- C1: the best pointer is replaced exactly when the update condition
holds; the condition is true on the first epoch, false on a tie with the
prior maximum (strictly-greater comparison, first-seen maximum wins),
and for finite metric values it is equivalent to strictly exceeding
every (equivalently, the maximum of the) strictly prior epoch value; on
the concrete run with per-epoch validation metrics 0.5, 0.7, 0.6, 0.9,
0.9 the final best pointer references epoch 4's checkpoint. -/
theorem best_pointer_first_seen_max :
    (∀ (P O T G : Type) (c : Collab P O T G) (pgn : Bool) (nE : Nat)
      (mc : String) (kw : List (String × JsonValue))
      (trainB valB : List (Batch T)) (e : Nat) (s : RunState P O),
      (runEpoch c pgn nE mc kw trainB valB e s).bestTarget =
        if bestUpdate e s.val_psnr
            (epochPsnr c (epochTrainOut c pgn nE trainB e s).1 valB) then
          some (RPath.epochFile e)
        else s.bestTarget) ∧
    (∀ (prior : List TVal) (cur : TVal), bestUpdate 1 prior cur = true) ∧
    (∀ (e : Nat) (prior : List TVal), e ≠ 1 →
      bestUpdate e prior (torchMax prior) = false) ∧
    (∀ (e : Nat) (q : ℚ) (qs : List ℚ) (cur : ℚ),
      bestUpdate e ((q :: qs).map TVal.fin) (TVal.fin cur) = true ↔
        (e = 1 ∨ ∀ r ∈ q :: qs, r < cur)) ∧
    (exRun 5).bestTarget = some (RPath.epochFile 4) ∧
    (exRun 5).val_psnr = [TVal.fin (1/2), TVal.fin (7/10), TVal.fin (3/5),
      TVal.fin (9/10), TVal.fin (9/10)] := by
  have hbest : (exRun 5).bestTarget = some (RPath.epochFile 4) ∧
      (exRun 5).val_psnr = [TVal.fin (1/2), TVal.fin (7/10), TVal.fin (3/5),
        TVal.fin (9/10), TVal.fin (9/10)] := by
    constructor <;>
      norm_num [exRun, runUpTo, runEpoch, epochTrainOut, trainPhase,
        trainStep, valPhase, valStep, tmean, bestUpdate, torchMax,
        epochPsnr, epochValLoss, TVal.gtB, TVal.addT, TVal.maxT, exCollab,
        exPsnrTable, exBatch, initRunState, List.range']
  refine ⟨fun P O T G c pgn nE mc kw trainB valB e s => rfl, fun prior cur => rfl,
    ?_, ?_, hbest.1, hbest.2⟩
  · intro e prior he
    rw [bestUpdate, TVal.gtB_self]
    simp [Nat.beq_eq_true_eq, he]
  · intro e q qs cur
    rw [bestUpdate, torchMax_map_fin]
    show ((e == 1) || decide (qs.foldl max q < cur)) = true ↔ _
    rw [Bool.or_eq_true, beq_iff_eq, decide_eq_true_eq, foldl_max_lt_iff]
    constructor
    · rintro (rfl | ⟨hq, h⟩)
      · exact Or.inl rfl
      · refine Or.inr ?_
        intro r hr
        rcases List.mem_cons.mp hr with rfl | hr
        · exact hq
        · exact h r hr
    · rintro (rfl | h)
      · exact Or.inl rfl
      · exact Or.inr ⟨h q (List.mem_cons_self q qs),
          fun r hr => h r (List.mem_cons_of_mem q hr)⟩

/-- Witness for C1: a tie with the prior maximum does not update the
pointer, while strictly exceeding the prior values does. -/
theorem best_pointer_first_seen_max_witness :
    bestUpdate 2 [TVal.fin (9/10)] (torchMax [TVal.fin (9/10)]) = false ∧
    bestUpdate 2 (((1:ℚ)/2 :: []).map TVal.fin) (TVal.fin (7/10)) = true :=
  ⟨best_pointer_first_seen_max.2.2.1 2 [TVal.fin (9/10)] (by omega),
   (best_pointer_first_seen_max.2.2.2.1 2 ((1:ℚ)/2) [] ((7:ℚ)/10)).mpr
     (Or.inr (by
       intro r hr
       rcases List.mem_cons.mp hr with rfl | hr
       · norm_num
       · simp at hr))⟩
